import Mathlib

/-!
# Verification of the RansomGuard detection core (`backend/app/monitoring.py`)

Shallow embedding of the detection core: `FileMutationEntropy`,
`AdaptiveBurstThreshold`, `RansomwareDetector`, the `FileSystemMonitor`
poll-loop diff, and `get_monitoring_status`.

Modelling conventions:
* wall-clock timestamps (`datetime.now()`) are passed explicitly as `ℚ`
  (seconds); `timedelta(seconds = w)` is subtraction of `(w : ℚ)`;
* Python `float` arithmetic on rates/thresholds is modelled over `ℚ`
  (all those computations are ratios of integers, clamps and
  comparisons); Shannon-entropy values are modelled over `ℝ` with
  `Real.logb 2` standing for `math.log2`;
* file contents are byte lists (`List (Fin 256)`); the filesystem is a
  partial map `String → Option (List (Fin 256))`, `none` standing for
  any read failure (missing file, permission error, non-regular file);
* object mutation (`self.abt_algorithm.add_event`) becomes explicit
  state passing; `self.lock` is a *non-reentrant* `threading.Lock`
  (line 75): a method that acquires it once and releases it is a plain
  function, but `is_burst_detected` acquires the lock (line 105) and
  then calls `calculate_abt`, which re-acquires it (line 89) — in
  CPython that second acquisition blocks forever. Lock acquisition is
  therefore modelled with an explicit `lock_held` flag and an `Option`
  result, `none` standing for a call that never returns; everything
  that synchronously reaches such a call (`analyze_file_change` at
  line 160, `_process_file_event`, the poll iteration) is likewise
  `Option`-valued, `none` meaning the call hangs.
-/

set_option maxRecDepth 8000

namespace RansomGuard

abbrev Byte := Fin 256

/-- The filesystem as seen by the monitor: `none` models any read failure. -/
abbrev FileSystem := String → Option (List Byte)

/-- `SeverityEnum` from `models.py`: info, low, medium, high, critical. -/
inductive SeverityEnum where
  | info
  | low
  | medium
  | high
  | critical
deriving DecidableEq, Repr

/-- Numeric rank of a severity, in declaration order (info lowest). -/
def SeverityEnum.rank : SeverityEnum → ℕ
  | .info => 0
  | .low => 1
  | .medium => 2
  | .high => 3
  | .critical => 4

/-- `AlertTypeEnum` from `models.py`: ransomware, raas, suspicious, benign. -/
inductive AlertTypeEnum where
  | ransomware
  | raas
  | suspicious
  | benign
deriving DecidableEq, Repr

/-- State of `AdaptiveBurstThreshold` (`monitoring.py` lines 68-75):
sliding-window burst tracker; `file_events` is the list of
`(timestamp, path)` pairs. Defaults: `window_size = 60` seconds,
`burst_multiplier = 3.0`. -/
structure AdaptiveBurstThreshold where
  window_size : ℕ := 60
  burst_multiplier : ℚ := 3
  file_events : List (ℚ × String) := []

namespace AdaptiveBurstThreshold

/-- `add_event` (lines 77-85): append `(now, file_path)`, then keep only
entries with timestamp strictly after `now - window_size`. -/
def add_event (self : AdaptiveBurstThreshold) (now : ℚ) (file_path : String) :
    AdaptiveBurstThreshold :=
  let events := self.file_events ++ [(now, file_path)]
  let cutoff_time := now - (self.window_size : ℚ)
  { self with file_events := events.filter fun tp => cutoff_time < tp.1 }

/-- `calculate_abt` (lines 87-101): default 2.0 below 10 entries, else
`(count / window_size) * burst_multiplier` clamped to `[1, 10]`. -/
def calculate_abt (self : AdaptiveBurstThreshold) : ℚ :=
  if self.file_events.length < 10 then 2
  else
    let recent_events : ℚ := self.file_events.length
    let baseline_rate := recent_events / (self.window_size : ℚ)
    let abt := baseline_rate * self.burst_multiplier
    max 1 (min 10 abt)

/-- `calculate_abt`'s entry with the caller's lock state explicit: the
`with self.lock` at line 89 blocks forever when the calling thread
already holds the non-reentrant lock (`none`); otherwise lines 90-101
run and return `calculate_abt`'s value. -/
def calculate_abt_acquiring (self : AdaptiveBurstThreshold) (lock_held : Bool) : Option ℚ :=
  if lock_held then none else some self.calculate_abt

/-- `is_burst_detected` (lines 103-108): acquires `self.lock`
(line 105) — blocking forever if the caller already holds it — computes
the current rate `count / max 1 window_size`, then calls
`self.calculate_abt()` (line 107) *while still holding the lock*. That
nested acquisition of the non-reentrant `threading.Lock` never returns,
so no call of this method ever does: the comparison at line 108 is dead
code. -/
def is_burst_detected (self : AdaptiveBurstThreshold) (lock_held : Bool) : Option Bool :=
  if lock_held then none
  else
    let current_rate : ℚ := (self.file_events.length : ℚ) / ((max 1 self.window_size : ℕ) : ℚ)
    match self.calculate_abt_acquiring true with
    | none => none
    | some abt => some (decide (abt < current_rate))

end AdaptiveBurstThreshold

namespace FileMutationEntropy

/-- `FileMutationEntropy.calculate_entropy` (lines 22-42): Shannon
entropy of a byte list over the 256-value histogram. Empty data yields
0; otherwise, for each byte value with positive count, accumulate
`-(count/len) * log2 (count/len)`. `math.log2` is `Real.logb 2`. -/
noncomputable def calculate_entropy (data : List Byte) : ℝ :=
  if data.length = 0 then 0
  else
    ∑ b : Byte,
      if 0 < data.count b then
        -(((data.count b : ℝ) / (data.length : ℝ)) *
          Real.logb 2 ((data.count b : ℝ) / (data.length : ℝ)))
      else 0

/-- `FileMutationEntropy.calculate_file_entropy` (lines 44-66): sample
three windows of at most `sample_size` bytes at offsets `0`,
`file_size / 2` and `max 0 (file_size - sample_size)` (`f.read(n)` at
position `pos` is drop-then-take), concatenate them and take their
entropy. A zero-byte file yields 0, and any read failure (modelled by
`fs file_path = none`, matching the `except` handler) yields 0. -/
noncomputable def calculate_file_entropy (fs : FileSystem) (file_path : String)
    (sample_size : ℕ := 8192) : ℝ :=
  match fs file_path with
  | none => 0
  | some content =>
      let file_size := content.length
      if file_size = 0 then 0
      else
        let sample_positions := [0, file_size / 2, max 0 (file_size - sample_size)]
        let samples := sample_positions.map fun pos =>
          (content.drop pos).take (min sample_size (file_size - pos))
        calculate_entropy samples.flatten

end FileMutationEntropy

/-- Python `str.rfind`: index of the last occurrence of `c`, `-1` when
absent. -/
def rfind (p : List Char) (c : Char) : Int :=
  match p.reverse.findIdx? (· = c) with
  | none => -1
  | some i => (p.length : Int) - 1 - (i : Int)

/-- Extension part of `os.path.splitext` (posix): the suffix starting
at the last dot, provided that dot comes after the last `/` and the
basename has at least one non-dot character before it; otherwise the
empty extension. -/
def splitext_ext (p : List Char) : List Char :=
  if rfind p '/' < rfind p '.' ∧
      ∃ i : Fin p.length, rfind p '/' < (i : Int) ∧ (i : Int) < rfind p '.' ∧ p.get i ≠ '.' then
    p.drop (rfind p '.').toNat
  else []

/-- `os.path.splitext(file_path)[1].lower()` (line 142); `str.lower` is
modelled by `Char.toLower` per character (the extensions compared
against are ASCII). -/
def path_ext_lower (file_path : String) : String :=
  ⟨(splitext_ext file_path.data).map Char.toLower⟩

/-- The verdict dictionary built by `analyze_file_change`
(lines 122-130). The numeric rendering inside the two entropy reason
strings (`f"High entropy: {fme:.3f}"`) is elided, float formatting not
being modelled; the other reason strings are the source's. -/
structure DetectionResult where
  is_ransomware : Bool
  is_suspicious : Bool
  fme : ℝ
  abt : ℚ
  severity : SeverityEnum
  type : AlertTypeEnum
  reasons : List String

/-- `RansomwareDetector.suspicious_extensions` (line 116). -/
def suspicious_extensions : List String := [".enc", ".locked", ".crypted", ".crypto", ".ransom"]

/-- `RansomwareDetector.high_entropy_threshold` (line 117). -/
noncomputable def high_entropy_threshold : ℝ := 7.5

/-- `RansomwareDetector.medium_entropy_threshold` (line 118). -/
noncomputable def medium_entropy_threshold : ℝ := 6.0

/-- Mutable state of `RansomwareDetector` (lines 110-118): only the
burst tracker changes across calls; the thresholds and the extension
set are fixed in the constructor and modelled as the top-level
definitions above. -/
structure RansomwareDetector where
  abt_algorithm : AdaptiveBurstThreshold := {}

open Classical in
/-- `RansomwareDetector._check_raas_pattern` (lines 182-188): among the
last 10 window entries (`file_events[-10:]`), count those whose path's
recomputed file entropy exceeds 7.0, and report whether at least 5 do. -/
noncomputable def check_raas_pattern (abt_state : AdaptiveBurstThreshold) (fs : FileSystem) :
    Prop :=
  5 ≤ ((abt_state.file_events.drop (abt_state.file_events.length - 10)).countP
        fun tp => decide (7 < FileMutationEntropy.calculate_file_entropy fs tp.2 8192))

/-- `analyze_file_change`, extension-check block (lines 141-145). -/
def step_extension (file_ext : String) (r : DetectionResult) : DetectionResult :=
  if file_ext ∈ suspicious_extensions then
    { r with is_suspicious := true,
             reasons := r.reasons ++ ["Suspicious extension: " ++ file_ext] }
  else r

open Classical in
/-- `analyze_file_change`, entropy-thresholds block (lines 147-157). -/
noncomputable def step_entropy (fme : ℝ) (r : DetectionResult) : DetectionResult :=
  if high_entropy_threshold < fme then
    { r with is_ransomware := true, severity := .critical, type := .ransomware,
             reasons := r.reasons ++ ["High entropy"] }
  else if medium_entropy_threshold < fme then
    { r with is_suspicious := true, severity := .medium, type := .suspicious,
             reasons := r.reasons ++ ["Medium entropy"] }
  else r

/-- `analyze_file_change`, burst-activity block (lines 159-164). -/
def step_burst (burst : Bool) (r : DetectionResult) : DetectionResult :=
  if burst then
    { r with is_suspicious := true,
             severity := if r.severity = .info then .low else r.severity,
             reasons := r.reasons ++ ["Burst activity detected"] }
  else r

open Classical in
/-- `analyze_file_change`, rapid-encryption block (lines 166-171). -/
noncomputable def step_rapid (action : String) (fme : ℝ) (r : DetectionResult) :
    DetectionResult :=
  if action = "modified" ∧ (6.5 : ℝ) < fme then
    { r with is_ransomware := true, severity := .high, type := .ransomware,
             reasons := r.reasons ++ ["Rapid encryption pattern"] }
  else r

open Classical in
/-- `analyze_file_change`, RaaS block (lines 173-178). -/
noncomputable def step_raas (raas : Prop) (r : DetectionResult) : DetectionResult :=
  if raas then
    { r with is_ransomware := true, severity := .critical, type := .raas,
             reasons := r.reasons ++ ["RaaS pattern detected"] }
  else r

/-- `RansomwareDetector.analyze_file_change` (lines 120-180), with the
mutation of `self.abt_algorithm` made explicit in the returned state.
The steps, in source order: initial verdict; FME; ABT update; extension
check; entropy thresholds; burst check; rapid-encryption heuristic;
RaaS check; return `(is_ransomware or is_suspicious, result)`. The
burst check at line 160 calls `is_burst_detected`, which never returns
(its nested lock acquisition); the `match` propagates that hang
(`none`), making the rapid-encryption block, the RaaS block and the
`return` at line 180 unreachable on every call. -/
noncomputable def analyze_file_change (self : RansomwareDetector) (fs : FileSystem)
    (now : ℚ) (file_path : String) (action : String) :
    Option ((Bool × DetectionResult) × RansomwareDetector) :=
  let result0 : DetectionResult :=
    { is_ransomware := false, is_suspicious := false, fme := 0, abt := 0,
      severity := .info, type := .benign, reasons := [] }
  let fme := FileMutationEntropy.calculate_file_entropy fs file_path 8192
  let abt_state := self.abt_algorithm.add_event now file_path
  let abt := abt_state.calculate_abt
  let r2 := { result0 with fme := fme, abt := abt }
  let r4 := step_entropy fme (step_extension (path_ext_lower file_path) r2)
  match abt_state.is_burst_detected false with
  | none => none
  | some burst =>
      let r7 :=
        step_raas (check_raas_pattern abt_state fs)
          (step_rapid action fme (step_burst burst r4))
      some ((r7.is_ransomware || r7.is_suspicious, r7), { self with abt_algorithm := abt_state })

/-- State of `FileSystemMonitor` (lines 190-197) relevant to the status
query: watch paths, detector, running flag. -/
structure FileSystemMonitor where
  watch_paths : List String
  detector : RansomwareDetector
  running : Bool

/-- The diff events one iteration of `monitor_loop` (lines 207-228)
constructs and hands to `_process_file_event`, in hand-off order:
walking the watch paths yields `walked` (the paths in traversal order);
a `created` event for each walked path absent from the previous
snapshot `last_files` (line 221, during the walk), then a `deleted`
event for each previous path absent from the current snapshot
(line 226). Whether these hand-offs actually complete is modelled by
`monitor_iteration_run`. -/
def monitor_iteration (last_files walked : List String) : List (String × String) :=
  ((walked.filter fun p => p ∉ last_files).map fun p => (p, "created"))
    ++ ((last_files.filter fun p => p ∉ walked).map fun p => (p, "deleted"))

/-- `FileSystemMonitor._process_file_event` (lines 247-277): records
the file event, then synchronously calls `analyze_file_change`. A hang
inside that call is not an exception, so the `except` at line 275 never
fires: the hang propagates (`none`). On completion the detector's new
state would be returned. -/
noncomputable def process_file_event (d : RansomwareDetector) (fs : FileSystem) (now : ℚ)
    (file_path action : String) : Option RansomwareDetector :=
  match analyze_file_change d fs now file_path action with
  | none => none
  | some r => some r.2

/-- One poll iteration's execution: each diff event is handed
synchronously to `_process_file_event` in order; the iteration
completes (returning the final detector state) only if every hand-off
returns. The `try`/`except` at lines 210/231 catches exceptions, not a
call that blocks forever. -/
noncomputable def monitor_iteration_run (d : RansomwareDetector) (fs : FileSystem) (now : ℚ)
    (last_files walked : List String) : Option RansomwareDetector :=
  (monitor_iteration last_files walked).foldlM
    (fun st e => process_file_event st fs now e.1 e.2) d

/-- The dictionary returned by `get_monitoring_status` (lines 317-329):
`abt` and `recent_events` are `Option`s because the stopped branch's
dictionary has no such keys. -/
structure MonitoringStatus where
  status : String
  paths : List String
  abt : Option ℚ
  recent_events : Option ℕ

/-- `get_monitoring_status` (lines 317-329), the global
`_monitor_instance` passed explicitly. -/
def get_monitoring_status (monitor_instance : Option FileSystemMonitor) : MonitoringStatus :=
  match monitor_instance with
  | none => { status := "stopped", paths := [], abt := none, recent_events := none }
  | some m =>
      { status := if m.running then "running" else "stopped",
        paths := m.watch_paths,
        abt := some m.detector.abt_algorithm.calculate_abt,
        recent_events := some m.detector.abt_algorithm.file_events.length }

/-- A 512-byte file content: every byte value appearing exactly twice.
Sampling it (three overlapping windows: whole, second half, whole)
yields 1280 bytes with every byte value appearing exactly 5 times, a
uniform histogram, hence entropy exactly 8. -/
def uniformContent : List Byte := List.finRange 256 ++ List.finRange 256

/-- A one-file filesystem used as concrete input: `/data/doc.bin` holds
`uniformContent`; every other path fails to read. -/
def exampleFS : FileSystem := fun p => if p = "/data/doc.bin" then some uniformContent else none

end RansomGuard

namespace RansomGuard

open AdaptiveBurstThreshold

/-- C2 helper: the clamp `max 1 (min 10 x)` always lies in `[1, 10]`. -/
theorem clamp_mem_Icc (x : ℚ) : 1 ≤ max 1 (min 10 x) ∧ max 1 (min 10 x) ≤ 10 :=
  ⟨le_max_left _ _, max_le (by norm_num) (min_le_left 10 x)⟩

/-- **C2.** `calculate_abt` returns exactly 2 when the window holds fewer
than 10 entries (whatever the multiplier); otherwise it returns
`(count / window_size) * burst_multiplier` clamped into `[1, 10]`; and
for every tracker state the returned value lies in `[1, 10]`. -/
theorem calculate_abt_spec (s : AdaptiveBurstThreshold) :
    (s.file_events.length < 10 → s.calculate_abt = 2) ∧
    (10 ≤ s.file_events.length →
      s.calculate_abt =
        max 1 (min 10 ((s.file_events.length : ℚ) / (s.window_size : ℚ) * s.burst_multiplier))) ∧
    (1 ≤ s.calculate_abt ∧ s.calculate_abt ≤ 10) := by
  refine ⟨fun h => by simp [calculate_abt, h], fun h => by simp [calculate_abt, Nat.not_lt.mpr h], ?_⟩
  by_cases h : s.file_events.length < 10
  · simp [calculate_abt, h]
    norm_num
  · simp only [calculate_abt, h, if_false]
    exact clamp_mem_Icc _

/-- Witness for C2 at concrete states: an empty window yields 2, a
60-entry window with defaults yields the clamped formula value 3, and
both lie in `[1, 10]`. -/
theorem calculate_abt_spec_witness :
    (AdaptiveBurstThreshold.mk 60 3 []).calculate_abt = 2 ∧
    (AdaptiveBurstThreshold.mk 60 3 (List.replicate 60 ((0 : ℚ), "f"))).calculate_abt =
      max 1 (min 10 (((List.replicate 60 ((0 : ℚ), "f")).length : ℚ) / (60 : ℚ) * 3)) ∧
    1 ≤ (AdaptiveBurstThreshold.mk 60 3 (List.replicate 60 ((0 : ℚ), "f"))).calculate_abt := by
  refine ⟨(calculate_abt_spec _).1 (by simp), ?_, ((calculate_abt_spec _).2.2).1⟩
  exact (calculate_abt_spec _).2.1 (by simp)

/-- **C5.** After `add_event`, every entry remaining in `file_events`
has a timestamp within `window_size` seconds of the call's `now`
(strictly newer than `now - window_size`), and the new window is
exactly the old one with `(now, path)` appended and stale entries
filtered out. -/
theorem add_event_window_invariant (s : AdaptiveBurstThreshold) (now : ℚ) (p : String) :
    (∀ e ∈ (s.add_event now p).file_events, now - (s.window_size : ℚ) < e.1) ∧
    (s.add_event now p).file_events =
      (s.file_events ++ [(now, p)]).filter fun tp => now - (s.window_size : ℚ) < tp.1 := by
  constructor
  · intro e he
    have := List.of_mem_filter he
    simpa using this
  · rfl

/-- Witness for C5 at a concrete call: adding an event at time 0 to a
window holding one fresh and one stale entry. -/
theorem add_event_window_invariant_witness :
    ∀ e ∈ ((AdaptiveBurstThreshold.mk 60 3 [((-10 : ℚ), "a"), ((-70 : ℚ), "b")]).add_event 0 "c").file_events,
      (0 : ℚ) - ((60 : ℕ) : ℚ) < e.1 := by
  intro e he
  exact (add_event_window_invariant (AdaptiveBurstThreshold.mk 60 3 [((-10 : ℚ), "a"), ((-70 : ℚ), "b")]) 0 "c").1 e he

/-- The byte counts of a list over all 256 byte values sum to its length. -/
theorem sum_count_univ (l : List Byte) : ∑ b : Byte, l.count b = l.length := by
  induction l with
  | nil => simp
  | cons a t ih =>
      have hc : ∀ b : Byte, (a :: t).count b = t.count b + (if b = a then 1 else 0) := by
        intro b
        by_cases h : b = a <;> simp [List.count_cons, h]
      rw [Finset.sum_congr rfl fun b _ => hc b, Finset.sum_add_distrib, ih]
      simp

/-- The byte frequencies of a nonempty list sum to 1. -/
theorem sum_freq_eq_one (data : List Byte) (hlen : data.length ≠ 0) :
    ∑ b : Byte, ((data.count b : ℝ) / (data.length : ℝ)) = 1 := by
  rw [← Finset.sum_div]
  have hs : ∑ b : Byte, ((data.count b : ℝ)) = (data.length : ℝ) := by
    rw [← Nat.cast_sum]
    exact_mod_cast congrArg (fun n : ℕ => (n : ℝ)) (sum_count_univ data)
  rw [hs, div_self (by exact_mod_cast hlen)]

/-- Gibbs-type bound via Jensen's inequality for the concave
`negMulLog`: a 256-point probability vector has natural-log entropy at
most `log 256`. -/
theorem sum_negMulLog_le_log_card {p : Byte → ℝ} (hp0 : ∀ b, 0 ≤ p b)
    (hsum : ∑ b : Byte, p b = 1) :
    ∑ b : Byte, Real.negMulLog (p b) ≤ Real.log 256 := by
  have hw1 : ∑ _b : Byte, ((256 : ℝ)⁻¹) = 1 := by
    rw [Finset.sum_const, Finset.card_univ, Fintype.card_fin]
    norm_num
  have hmem : ∀ b ∈ (Finset.univ : Finset Byte), (256 : ℝ) * p b ∈ Set.Ici (0 : ℝ) := by
    intro b _
    exact Set.mem_Ici.mpr (mul_nonneg (by norm_num) (hp0 b))
  have hw0 : ∀ b ∈ (Finset.univ : Finset Byte), (0 : ℝ) ≤ (fun _ : Byte => (256 : ℝ)⁻¹) b :=
    fun _ _ => by norm_num
  have hjensen := Real.concaveOn_negMulLog.le_map_sum hw0 hw1 hmem
  have hr : ∑ b : Byte, (256 : ℝ)⁻¹ • ((256 : ℝ) * p b) = 1 := by
    simp only [smul_eq_mul]
    rw [Finset.sum_congr rfl fun (b : Byte) _ => show (256 : ℝ)⁻¹ * ((256 : ℝ) * p b) = p b by ring]
    exact hsum
  rw [hr, Real.negMulLog_one] at hjensen
  have hexp : ∀ b : Byte, (256 : ℝ)⁻¹ • Real.negMulLog ((256 : ℝ) * p b)
      = (256 : ℝ)⁻¹ * (p b * Real.negMulLog 256) + Real.negMulLog (p b) := by
    intro b
    rw [smul_eq_mul, Real.negMulLog_mul]
    ring
  rw [Finset.sum_congr rfl fun b _ => hexp b, Finset.sum_add_distrib] at hjensen
  have h1 : ∑ b : Byte, (256 : ℝ)⁻¹ * (p b * Real.negMulLog 256)
      = (256 : ℝ)⁻¹ * Real.negMulLog 256 := by
    rw [← Finset.mul_sum, ← Finset.sum_mul, hsum, one_mul]
  rw [h1] at hjensen
  have hconst : (256 : ℝ)⁻¹ * Real.negMulLog 256 = -Real.log 256 := by
    rw [Real.negMulLog]
    ring
  linarith [hjensen, hconst.symm.le]

/-- Every summand of the entropy is `negMulLog` of the frequency,
rescaled from natural log to log base 2. -/
theorem entropy_term_eq (data : List Byte) (b : Byte) :
    (if 0 < data.count b then
        -(((data.count b : ℝ) / (data.length : ℝ)) *
          Real.logb 2 ((data.count b : ℝ) / (data.length : ℝ)))
      else 0) =
      Real.negMulLog ((data.count b : ℝ) / (data.length : ℝ)) / Real.log 2 := by
  by_cases hc : 0 < data.count b
  · rw [if_pos hc, Real.negMulLog, Real.logb]
    ring
  · rw [if_neg hc]
    have h0 : data.count b = 0 := Nat.eq_zero_of_not_pos hc
    simp [h0]

/-- Entropy is nonnegative: every summand is `-p * log2 p` with
`0 < p ≤ 1`. -/
theorem calculate_entropy_nonneg (data : List Byte) :
    0 ≤ FileMutationEntropy.calculate_entropy data := by
  rw [FileMutationEntropy.calculate_entropy]
  by_cases hlen : data.length = 0
  · simp [hlen]
  · rw [if_neg hlen]
    apply Finset.sum_nonneg
    intro b _
    by_cases hc : 0 < data.count b
    · rw [if_pos hc]
      have hn : (0 : ℝ) < (data.length : ℝ) := by exact_mod_cast Nat.pos_of_ne_zero hlen
      have hp0 : 0 < (data.count b : ℝ) / (data.length : ℝ) :=
        div_pos (by exact_mod_cast hc) hn
      have hp1 : (data.count b : ℝ) / (data.length : ℝ) ≤ 1 := by
        rw [div_le_one hn]
        exact_mod_cast List.count_le_length b data
      have hlog := Real.logb_nonpos (b := 2) (by norm_num) hp0.le hp1
      have := mul_nonpos_of_nonneg_of_nonpos hp0.le hlog
      linarith
    · rw [if_neg hc]

/-- Entropy is at most 8 bits per byte: rescale to `negMulLog` and
apply the Jensen bound, with `log 256 / log 2 = 8`. -/
theorem calculate_entropy_le_eight (data : List Byte) :
    FileMutationEntropy.calculate_entropy data ≤ 8 := by
  rw [FileMutationEntropy.calculate_entropy]
  by_cases hlen : data.length = 0
  · simp [hlen]
  · rw [if_neg hlen]
    have hn : (0 : ℝ) < (data.length : ℝ) := by exact_mod_cast Nat.pos_of_ne_zero hlen
    have hp0 : ∀ b : Byte, 0 ≤ (data.count b : ℝ) / (data.length : ℝ) :=
      fun b => div_nonneg (Nat.cast_nonneg _) hn.le
    calc (∑ b : Byte, if 0 < data.count b then
            -(((data.count b : ℝ) / (data.length : ℝ)) *
              Real.logb 2 ((data.count b : ℝ) / (data.length : ℝ)))
          else 0)
        = ∑ b : Byte, Real.negMulLog ((data.count b : ℝ) / (data.length : ℝ)) / Real.log 2 :=
          Finset.sum_congr rfl fun b _ => entropy_term_eq data b
      _ = (∑ b : Byte, Real.negMulLog ((data.count b : ℝ) / (data.length : ℝ))) / Real.log 2 := by
          rw [Finset.sum_div]
      _ ≤ Real.log 256 / Real.log 2 := by
          rw [div_le_div_iff_of_pos_right (Real.log_pos (by norm_num))]
          exact sum_negMulLog_le_log_card hp0 (sum_freq_eq_one data hlen)
      _ = 8 := by
          rw [show (256 : ℝ) = 2 ^ (8 : ℕ) by norm_num, Real.log_pow]
          have h2 : Real.log 2 ≠ 0 := ne_of_gt (Real.log_pos (by norm_num))
          field_simp

/-- **C4.** For every byte sequence, `calculate_entropy` returns a
value in `[0, 8]`, and the empty sequence yields exactly 0. -/
theorem calculate_entropy_range (data : List Byte) :
    0 ≤ FileMutationEntropy.calculate_entropy data ∧
    FileMutationEntropy.calculate_entropy data ≤ 8 ∧
    FileMutationEntropy.calculate_entropy [] = 0 :=
  ⟨calculate_entropy_nonneg data, calculate_entropy_le_eight data,
    by simp [FileMutationEntropy.calculate_entropy]⟩

/-- **C6.** `calculate_file_entropy` returns 0 on every path whose read
fails (the filesystem yields nothing: missing file, permission error,
non-regular file — the source's `except` handler) and on every empty
file; being a total function, it propagates no exception. -/
theorem calculate_file_entropy_failure (fs : FileSystem) (p : String) (n : ℕ) :
    (fs p = none → FileMutationEntropy.calculate_file_entropy fs p n = 0) ∧
    (fs p = some [] → FileMutationEntropy.calculate_file_entropy fs p n = 0) := by
  constructor
  · intro h
    simp [FileMutationEntropy.calculate_file_entropy, h]
  · intro h
    simp [FileMutationEntropy.calculate_file_entropy, h]

/-- Witness for C6: a filesystem where every read fails, and one whose
file is empty. -/
theorem calculate_file_entropy_failure_witness :
    FileMutationEntropy.calculate_file_entropy (fun _ => none) "/etc/shadow" 8192 = 0 ∧
    FileMutationEntropy.calculate_file_entropy (fun _ => some ([] : List Byte)) "/tmp/e" 8192 = 0 :=
  ⟨(calculate_file_entropy_failure (fun _ => none) "/etc/shadow" 8192).1 rfl,
    (calculate_file_entropy_failure (fun _ => some ([] : List Byte)) "/tmp/e" 8192).2 rfl⟩

/-- **C10 (counterexample).** With no active monitor instance,
`get_monitoring_status` returns only the stopped status and empty
paths: the returned record carries no adaptive burst threshold and no
in-window event count, refuting the claim that the status reports both
in every monitor state. -/
theorem get_monitoring_status_counterexample :
    (get_monitoring_status none).status = "stopped" ∧
    (get_monitoring_status none).abt = none ∧
    (get_monitoring_status none).recent_events = none :=
  ⟨rfl, rfl, rfl⟩

/-- **C10 (amended).** `get_monitoring_status` reports the
running/stopped status in every state; the adaptive burst threshold and
the in-window event count are reported only when a monitor instance
exists — the no-instance branch returns just
`{status: "stopped", paths: []}`. -/
theorem get_monitoring_status_spec (inst : Option FileSystemMonitor) :
    (inst = none →
      get_monitoring_status inst =
        { status := "stopped", paths := [], abt := none, recent_events := none }) ∧
    (∀ m, inst = some m →
      (get_monitoring_status inst).status = (if m.running then "running" else "stopped") ∧
      (get_monitoring_status inst).abt = some m.detector.abt_algorithm.calculate_abt ∧
      (get_monitoring_status inst).recent_events =
        some m.detector.abt_algorithm.file_events.length) := by
  constructor
  · intro h
    subst h
    rfl
  · intro m h
    subst h
    exact ⟨rfl, rfl, rfl⟩

theorem uniformContent_length : uniformContent.length = 512 := by
  simp [uniformContent]

theorem uniformContent_count (b : Byte) : uniformContent.count b = 2 := by
  rw [uniformContent, List.count_append,
    List.count_eq_one_of_mem (List.nodup_finRange 256) (List.mem_finRange b)]

/-- The three-window sample of `uniformContent` (size 512, below the
8192 sample size): whole file, second half, whole file again. -/
theorem uniformContent_sample :
    (([0, uniformContent.length / 2, max 0 (uniformContent.length - 8192)].map fun pos =>
        (uniformContent.drop pos).take (min 8192 (uniformContent.length - pos))).flatten)
      = uniformContent ++ (List.finRange 256 ++ uniformContent) := by
  rw [uniformContent_length]
  norm_num
  have hdrop : uniformContent.drop 256 = List.finRange 256 := by
    rw [uniformContent]
    exact List.drop_left' (by rw [List.length_finRange])
  have htake : uniformContent.take 512 = uniformContent :=
    List.take_of_length_le (by rw [uniformContent_length])
  have htake2 : (List.finRange (256 : ℕ)).take 256 = List.finRange 256 :=
    List.take_of_length_le (by rw [List.length_finRange])
  simp only [List.map_cons, List.map_nil, List.drop_zero, htake, hdrop, htake2,
    List.flatten_cons, List.flatten_nil, List.append_nil]

/-- The sampled 1280-byte list has every byte value exactly 5 times,
so its Shannon entropy is exactly `log2 256 = 8`. -/
theorem exampleFS_entropy :
    FileMutationEntropy.calculate_file_entropy exampleFS "/data/doc.bin" 8192 = 8 := by
  have h1 : FileMutationEntropy.calculate_file_entropy exampleFS "/data/doc.bin" 8192
      = (if uniformContent.length = 0 then (0 : ℝ) else
          FileMutationEntropy.calculate_entropy
            (([0, uniformContent.length / 2, max 0 (uniformContent.length - 8192)].map fun pos =>
              (uniformContent.drop pos).take (min 8192 (uniformContent.length - pos))).flatten)) :=
    rfl
  rw [h1, if_neg (by rw [uniformContent_length]; norm_num), uniformContent_sample]
  have hLc : ∀ b : Byte, (uniformContent ++ (List.finRange 256 ++ uniformContent)).count b = 5 := by
    intro b
    rw [List.count_append, List.count_append, uniformContent_count,
      List.count_eq_one_of_mem (List.nodup_finRange 256) (List.mem_finRange b)]
  have hLlen : (uniformContent ++ (List.finRange 256 ++ uniformContent)).length = 1280 := by
    rw [List.length_append, List.length_append, List.length_finRange, uniformContent_length]
  have hterm : ∀ b : Byte,
      (if 0 < (uniformContent ++ (List.finRange 256 ++ uniformContent)).count b then
          -((((uniformContent ++ (List.finRange 256 ++ uniformContent)).count b : ℝ) /
            ((uniformContent ++ (List.finRange 256 ++ uniformContent)).length : ℝ)) *
            Real.logb 2
              (((uniformContent ++ (List.finRange 256 ++ uniformContent)).count b : ℝ) /
                ((uniformContent ++ (List.finRange 256 ++ uniformContent)).length : ℝ)))
        else 0) = (1 / 32 : ℝ) := by
    intro b
    rw [hLc b, hLlen, if_pos (by norm_num)]
    push_cast
    rw [show (5 : ℝ) / 1280 = ((2 : ℝ) ^ (8 : ℕ))⁻¹ by norm_num,
      Real.logb, Real.log_inv, Real.log_pow]
    have h2 : Real.log 2 ≠ 0 := ne_of_gt (Real.log_pos (by norm_num))
    field_simp
    ring
  rw [FileMutationEntropy.calculate_entropy, if_neg (by rw [hLlen]; norm_num),
    Finset.sum_congr rfl fun b _ => hterm b, Finset.sum_const, Finset.card_univ,
    Fintype.card_fin, nsmul_eq_mul]
  norm_num

/-- Recording an 11th event at time 0 into a window already holding 10
fresh entries keeps all 11. -/
theorem seeded_add_event :
    ((⟨60, 3, List.replicate 10 ((0 : ℚ), "/data/doc.bin")⟩ :
        AdaptiveBurstThreshold).add_event 0 "/data/doc.bin").file_events
      = List.replicate 11 ((0 : ℚ), "/data/doc.bin") := by
  simp only [AdaptiveBurstThreshold.add_event]
  rw [← List.replicate_succ']
  apply List.filter_eq_self.mpr
  intro a ha
  have he := List.eq_of_mem_replicate ha
  subst he
  simp only [decide_eq_true_eq]
  norm_num

/-- On the seeded window, the RaaS check fires: all 10 of the last 10
entries point at the uniform high-entropy file. -/
theorem seeded_raas :
    check_raas_pattern
      ((⟨60, 3, List.replicate 10 ((0 : ℚ), "/data/doc.bin")⟩ :
          AdaptiveBurstThreshold).add_event 0 "/data/doc.bin") exampleFS := by
  rw [check_raas_pattern, seeded_add_event]
  have hx : decide (7 < FileMutationEntropy.calculate_file_entropy exampleFS "/data/doc.bin" 8192)
      = true := decide_eq_true (by rw [exampleFS_entropy]; norm_num)
  rw [show List.replicate 11 ((0 : ℚ), "/data/doc.bin")
      = ((0 : ℚ), "/data/doc.bin") :: List.replicate 10 ((0 : ℚ), "/data/doc.bin") from rfl]
  simp only [List.length_cons, List.length_replicate]
  norm_num
  rw [show List.replicate 10 ((0 : ℚ), "/data/doc.bin")
      = [((0 : ℚ), "/data/doc.bin"), ((0 : ℚ), "/data/doc.bin"), ((0 : ℚ), "/data/doc.bin"),
         ((0 : ℚ), "/data/doc.bin"), ((0 : ℚ), "/data/doc.bin"), ((0 : ℚ), "/data/doc.bin"),
         ((0 : ℚ), "/data/doc.bin"), ((0 : ℚ), "/data/doc.bin"), ((0 : ℚ), "/data/doc.bin"),
         ((0 : ℚ), "/data/doc.bin")] from rfl]
  simp only [List.countP_cons, List.countP_nil, hx]
  norm_num

/-- **C3.** `is_burst_detected` never returns: it acquires the
non-reentrant `threading.Lock` (line 105) and then `calculate_abt`
re-acquires it (line 89) while it is still held. At the claim's own
boundary input — a default tracker holding 601 entries — the call hangs
instead of returning `True`; indeed every call on every state hangs, so
the method reports a burst for no window at all, in particular not
"iff the window holds more than 600 entries". -/
theorem is_burst_detected_deadlock :
    (AdaptiveBurstThreshold.mk 60 3
        (List.replicate 601 ((0 : ℚ), "f"))).is_burst_detected false = none ∧
    ∀ (s : AdaptiveBurstThreshold) (lock_held : Bool),
      s.is_burst_detected lock_held = none := by
  refine ⟨rfl, fun s held => ?_⟩
  cases held <;> rfl

/-- **C1.** `analyze_file_change` never returns a verdict: every call
blocks forever at the burst check (line 160), inside `is_burst_detected`'s
nested lock acquisition. At the claim's input — a fresh detector, the
uniform 512-byte file whose sampled entropy is 8 (above the 7.5
threshold), action `modified` — no verdict with any severity is ever
returned, so in particular no critical one; the severity assignments of
lines 167-178 are dead code. -/
theorem analyze_file_change_deadlock :
    high_entropy_threshold <
      FileMutationEntropy.calculate_file_entropy exampleFS "/data/doc.bin" 8192 ∧
    analyze_file_change {} exampleFS 0 "/data/doc.bin" "modified" = none ∧
    ∀ (d : RansomwareDetector) (fs : FileSystem) (now : ℚ) (p a : String),
      analyze_file_change d fs now p a = none := by
  refine ⟨?_, rfl, fun d fs now p a => rfl⟩
  rw [exampleFS_entropy, high_entropy_threshold]
  norm_num

/-- **C7.** Even when the RaaS condition holds on the post-record
window — here 10 seeded high-entropy events plus the current one, all
of recomputed entropy 8 > 7.0 — `analyze_file_change` hangs at the
burst check (line 160) before the RaaS block (lines 173-178) and
returns no verdict at all. -/
theorem analyze_raas_deadlock :
    check_raas_pattern
      ((⟨60, 3, List.replicate 10 ((0 : ℚ), "/data/doc.bin")⟩ :
          AdaptiveBurstThreshold).add_event 0 "/data/doc.bin") exampleFS ∧
    analyze_file_change
      (RansomwareDetector.mk ⟨60, 3, List.replicate 10 ((0 : ℚ), "/data/doc.bin")⟩)
      exampleFS 0 "/data/doc.bin" "created" = none :=
  ⟨seeded_raas, rfl⟩

/-- **C8.** A `.locked` path never yields a returned verdict either:
the extension check (lines 141-145) runs first, but the call then hangs
at line 160, so no `is_suspicious` verdict is returned for any path,
suspicious extension or not. -/
theorem analyze_locked_deadlock :
    path_ext_lower "/tmp/a.locked" ∈ suspicious_extensions ∧
    analyze_file_change {} (fun _ => none) 0 "/tmp/a.locked" "created" = none :=
  ⟨by decide, rfl⟩

/-- **C9.** For the previous snapshot `{a, b}` and the current `{b, c}`
the iteration constructs the diff events — one created for `c`, then
one deleted for `a`, none for `b` — but its execution hangs inside the
first synchronous `_process_file_event` hand-off (the created event for
`c`, whose `analyze_file_change` call never returns), so the deleted
event for `a` is never processed and the iteration never completes. -/
theorem monitor_iteration_run_deadlock :
    monitor_iteration ["a", "b"] ["b", "c"] = [("c", "created"), ("a", "deleted")] ∧
    monitor_iteration_run {} (fun _ => none) 0 ["a", "b"] ["b", "c"] = none := by
  exact ⟨rfl, rfl⟩

/-- Witness for C10's amended theorem: the stopped branch and a running
instance with a fresh detector. -/
theorem get_monitoring_status_spec_witness :
    get_monitoring_status none =
      { status := "stopped", paths := [], abt := none, recent_events := none } ∧
    (get_monitoring_status
        (some (FileSystemMonitor.mk ["/tmp/test_ransomguard"] {} true))).abt =
      some (AdaptiveBurstThreshold.calculate_abt {}) := by
  refine ⟨(get_monitoring_status_spec none).1 rfl, ?_⟩
  exact ((get_monitoring_status_spec _).2 _ rfl).2.1

end RansomGuard
